import Mathlib

/-!
Verification of the cricket-backend draft-generation job (src/main.py).

The Python source is shallowly embedded below:

* `Env` models the environment-provided configuration (module-level
  constants `SUPABASE_URL`, `SERVICE_ROLE_KEY`, `APP_BASE_URL`, `JOB_SECRET`).
* `Match` models the event record returned by the Supabase query in
  `get_next_match`, with the two window-open timestamps already parsed to
  instants (modelled as integers, seconds since an arbitrary epoch, matching
  `datetime.fromisoformat` of the stored UTC timestamps).
* `build_message` embeds the Python function of the same name.
* `windowTasks` embeds the two window checks in `generate_whatsapp_draft`
  (lines 93-98), which append `"earlybird"` and `"general"` to `tasks`.
* `StoreBehavior` abstracts the external Supabase store: the result of the
  one event fetch and of each draft write; a non-success HTTP response
  (`raise_for_status`) is an `Except.error`.
* `processTasks` embeds the write loop (lines 100-117) and
  `generate_whatsapp_draft` the whole endpoint, additionally returning a
  trace of the store calls performed, the drafts actually persisted, and the
  number of clock reads (`datetime.utcnow()` calls) made.
-/

/-- Environment-provided configuration (main.py lines 7-10). -/
structure Env where
  supabaseUrl : String
  serviceRoleKey : String
  appBaseUrl : String
  jobSecret : String
deriving DecidableEq, Repr

/-- An event record as fetched from the `matches` table.  The two
window-open timestamps are the parsed UTC instants (lines 90-91), modelled
as integers (seconds). -/
structure Match where
  id : String
  match_date : String
  start_time : String
  location : String
  max_players : Nat
  earlybird_open_at : Int
  general_open_at : Int
deriving DecidableEq, Repr

/-- `datetime.timedelta(minutes=5)` in seconds. -/
def fiveMinutes : Int := 5 * 60

/-- The RSVP link built at main.py line 54:
`f"\x7bAPP_BASE_URL\x7d/#rsvp?match_id=\x7bmatch['id']\x7d&aud=\x7baudience\x7d"`. -/
def rsvp_link (env : Env) (m : Match) (audience : String) : String :=
  env.appBaseUrl ++ "/#rsvp?match_id=" ++ m.id ++ "&aud=" ++ audience

/-- Embedding of `build_message` (main.py lines 49-70).  Python string
slicing `match["start_time"][:5]` is `String.take 5`. -/
def build_message (env : Env) (m : Match) (audience : String) : String :=
  let date_str := m.match_date
  let time_str := m.start_time.take 5
  let location := m.location
  let spots := m.max_players
  let link := rsvp_link env m audience
  if audience == "earlybird" then
    "🏏 Weekend Cricket RSVP (Early Bird)\n📅 " ++ date_str ++ " (Sat) • ⏰ "
      ++ time_str ++ "\n📍 " ++ location ++ "\n✅ RSVP here: " ++ link
      ++ "\nEarly-bird window is open now."
  else
    "🏏 Weekend Cricket RSVP Open\n📅 " ++ date_str ++ " (Sat) • ⏰ "
      ++ time_str ++ "\n📍 " ++ location ++ "\n✅ RSVP here: " ++ link
      ++ "\nSpots: " ++ toString spots ++ " • First come first serve."

/-- The window evaluation of main.py lines 93-98: starting from an empty
`tasks` list, append `"earlybird"` if
`early_open <= now_utc <= early_open + timedelta(minutes=5)` and
`"general"` if `gen_open <= now_utc <= gen_open + timedelta(minutes=5)`. -/
def windowTasks (now early_open gen_open : Int) : List String :=
  (if early_open ≤ now ∧ now ≤ early_open + fiveMinutes then ["earlybird"] else [])
    ++ (if gen_open ≤ now ∧ now ≤ gen_open + fiveMinutes then ["general"] else [])

/-- A row as posted to the `message_drafts` table (main.py lines 104-109). -/
structure Draft where
  match_id : String
  audience : String
  message_text : String
  status : String
deriving DecidableEq, Repr

/-- The payload built for a given audience segment in the write loop
(main.py lines 104-109). -/
def draftFor (env : Env) (m : Match) (audience : String) : Draft :=
  { match_id := m.id
    audience := audience
    message_text := build_message env m audience
    status := "ready" }

/-- Abstraction of the external Supabase store, viewed through the two
operations the job performs: the single event fetch of `get_next_match`
(`.ok none` when the query returns no row, `.error e` when
`raise_for_status` raises) and the draft write (`.error e` when the POST
returns a non-success status). -/
structure StoreBehavior where
  fetch : Except String (Option Match)
  write : Draft → Except String Unit

/-- Result of the write loop: the `created` list accumulated by the Python
code, the write calls issued in order, the drafts actually persisted
(successful writes), and the error of the first failing write, if any. -/
structure LoopOut where
  created : List String
  calls : List Draft
  persisted : List Draft
  err : Option String
deriving DecidableEq, Repr

/-- Embedding of the write loop over `tasks` (main.py lines 100-117).  On a
non-success POST response `raise_for_status` aborts the loop; the failing
call is issued but persists nothing. -/
def processTasks (env : Env) (store : StoreBehavior) (m : Match) :
    List String → LoopOut
  | [] => ⟨[], [], [], none⟩
  | audience :: rest =>
    let d := draftFor env m audience
    match store.write d with
    | .error e => ⟨[], [d], [], some e⟩
    | .ok _ =>
      let r := processTasks env store m rest
      ⟨audience :: r.created, d :: r.calls, d :: r.persisted, r.err⟩

/-- The value returned (or raised) by the endpoint. -/
inductive RunOutcome where
  /-- `HTTPException(status_code=401, detail="Unauthorized")` (line 80). -/
  | unauthorized : RunOutcome
  /-- An uncaught exception from `raise_for_status` on a store call. -/
  | storeError (e : String) : RunOutcome
  /-- `\x7b"ok": True, "message": "No upcoming match found"\x7d` (line 85). -/
  | noUpcoming : RunOutcome
  /-- `\x7b"ok": True, "match_id": ..., "created": ...\x7d` (line 119). -/
  | success (match_id : String) (created : List String) : RunOutcome
deriving DecidableEq, Repr

/-- Whether the run terminates in an error (a raised exception) rather than
a 200 response with `"ok": True`. -/
def RunOutcome.isError : RunOutcome → Bool
  | .unauthorized => true
  | .storeError _ => true
  | .noUpcoming => false
  | .success _ _ => false

/-- The observable behaviour of one run: its outcome together with a trace
of the external interactions (event fetches, draft-write calls, drafts
actually persisted) and the number of clock reads performed. -/
structure RunTrace where
  outcome : RunOutcome
  fetches : Nat
  writeCalls : List Draft
  persisted : List Draft
  clockReads : Nat
deriving DecidableEq, Repr

/-- Embedding of the endpoint `generate_whatsapp_draft` (main.py
lines 76-119).  `clock` models successive `datetime.utcnow()` reads: the
n-th clock read returns `clock n`; the trace records how many reads were
made.  Line 87 performs the single read `clock 0`. -/
def generate_whatsapp_draft (env : Env) (store : StoreBehavior)
    (authorization : String) (clock : Nat → Int) : RunTrace :=
  if authorization ≠ "Bearer " ++ env.jobSecret then
    ⟨.unauthorized, 0, [], [], 0⟩
  else
    match store.fetch with
    | .error e => ⟨.storeError e, 1, [], [], 0⟩
    | .ok none => ⟨.noUpcoming, 1, [], [], 0⟩
    | .ok (some m) =>
      let now_utc := clock 0
      let tasks := windowTasks now_utc m.earlybird_open_at m.general_open_at
      let r := processTasks env store m tasks
      match r.err with
      | some e => ⟨.storeError e, 1, r.calls, r.persisted, 1⟩
      | none => ⟨.success m.id r.created, 1, r.calls, r.persisted, 1⟩

/-! ### Helper lemmas -/

/-- A list is an infix of any list extended on the left. -/
lemma char_infix_ext (x s t : List Char) (h : x <:+: t) : x <:+: s ++ t :=
  h.trans (List.suffix_append s t).isInfix

/-- A list is an infix of itself followed by anything. -/
lemma char_infix_head (x rest : List Char) : x <:+: x ++ rest :=
  (List.prefix_append x rest).isInfix

/-- A two-segment head is an infix of the right-associated append chain. -/
lemma char_infix_head_pair (a b rest : List Char) : a ++ b <:+: a ++ (b ++ rest) := by
  rw [← List.append_assoc]
  exact (List.prefix_append (a ++ b) rest).isInfix

/-- No string equals itself prefixed by the literal "Bearer ". -/
lemma ne_bearer_self (s : String) : s ≠ "Bearer " ++ s := by
  intro h
  have h2 := congrArg String.length h
  rw [String.length_append] at h2
  have h3 : ("Bearer " : String).length = 7 := rfl
  omega

/-! ### Claim theorems -/

/-- Claim C1: for every current instant `now` and every audience segment S
(earlybird or general) with window-open instant T, the run includes S in
the set of newly-open segments if and only if `T ≤ now ≤ T + 5` minutes;
both boundary instants are included (closed interval), and the two
segments are evaluated independently — each membership depends only on its
own open instant, so both, one, or neither may be included. -/
theorem window_inclusion_iff (now early_open gen_open : Int) :
    ("earlybird" ∈ windowTasks now early_open gen_open ↔
      early_open ≤ now ∧ now ≤ early_open + fiveMinutes) ∧
    ("general" ∈ windowTasks now early_open gen_open ↔
      gen_open ≤ now ∧ now ≤ gen_open + fiveMinutes) := by
  unfold windowTasks
  by_cases h1 : early_open ≤ now ∧ now ≤ early_open + fiveMinutes <;>
    by_cases h2 : gen_open ≤ now ∧ now ≤ gen_open + fiveMinutes <;>
      simp [h1, h2]

/-- Claim C2: every invocation whose credential is missing or does not
match the configured secret fails with the Unauthorized outcome and
performs zero store calls — no event fetch and no draft write — leaving
all external state untouched. -/
theorem unauthorized_no_store_calls (env : Env) (store : StoreBehavior)
    (authorization : String) (clock : Nat → Int)
    (h : authorization ≠ "Bearer " ++ env.jobSecret) :
    generate_whatsapp_draft env store authorization clock =
      ⟨.unauthorized, 0, [], [], 0⟩ := by
  simp [generate_whatsapp_draft, h]

/-- Witness for C2 at a concrete input: a missing (empty) credential. -/
theorem unauthorized_no_store_calls_witness :
    generate_whatsapp_draft ⟨"https://sb.example", "svc-key", "https://app.example", "s3cret"⟩
        ⟨.ok none, fun _ => .ok ()⟩ "" (fun _ => 0) =
      ⟨.unauthorized, 0, [], [], 0⟩ :=
  unauthorized_no_store_calls _ _ _ _ (by decide)

/-- Claim C4: an authorized run whose event-store query returns no event
with date ≥ today returns the successful no-op outcome, performs zero
draft writes, and does not report an error. -/
theorem no_upcoming_event_noop (env : Env) (store : StoreBehavior)
    (authorization : String) (clock : Nat → Int)
    (hauth : authorization = "Bearer " ++ env.jobSecret)
    (hfetch : store.fetch = .ok none) :
    generate_whatsapp_draft env store authorization clock =
      ⟨.noUpcoming, 1, [], [], 0⟩ ∧
    (generate_whatsapp_draft env store authorization clock).outcome.isError = false := by
  subst hauth
  refine ⟨?_, ?_⟩ <;> simp [generate_whatsapp_draft, hfetch, RunOutcome.isError]

/-- Witness for C4 at a concrete input. -/
theorem no_upcoming_event_noop_witness :
    generate_whatsapp_draft ⟨"https://sb.example", "svc-key", "https://app.example", "s3cret"⟩
        ⟨.ok none, fun _ => .ok ()⟩ "Bearer s3cret" (fun _ => 0) =
      ⟨.noUpcoming, 1, [], [], 0⟩ ∧
    (generate_whatsapp_draft ⟨"https://sb.example", "svc-key", "https://app.example", "s3cret"⟩
        ⟨.ok none, fun _ => .ok ()⟩ "Bearer s3cret" (fun _ => 0)).outcome.isError = false :=
  no_upcoming_event_noop _ _ _ _ (by decide) rfl

/-- Claim C10: the credential check requires the authorization header to
equal exactly the string "Bearer " followed by the configured secret; any
header differing in any character — in particular the bare secret without
the "Bearer " prefix — is rejected as Unauthorized. -/
theorem auth_exact_string_equality (env : Env) (store : StoreBehavior) (clock : Nat → Int) :
    (∀ authorization : String,
      (generate_whatsapp_draft env store authorization clock).outcome = .unauthorized ↔
        authorization ≠ "Bearer " ++ env.jobSecret) ∧
    (generate_whatsapp_draft env store env.jobSecret clock).outcome = .unauthorized := by
  have key : ∀ authorization : String,
      (generate_whatsapp_draft env store authorization clock).outcome = .unauthorized ↔
        authorization ≠ "Bearer " ++ env.jobSecret := by
    intro authorization
    by_cases h : authorization = "Bearer " ++ env.jobSecret
    · subst h
      constructor
      · intro hout
        exfalso
        revert hout
        unfold generate_whatsapp_draft
        rw [if_neg (by simp)]
        cases hf : store.fetch with
        | error e => simp [hf]
        | ok om =>
          cases om with
          | none => simp [hf]
          | some m =>
            cases herr : (processTasks env store m
                (windowTasks (clock 0) m.earlybird_open_at m.general_open_at)).err with
            | none => simp [hf, herr]
            | some e => simp [hf, herr]
      · intro hne
        exact absurd rfl hne
    · constructor
      · intro _
        exact h
      · intro _
        simp [generate_whatsapp_draft, h]
  exact ⟨key, (key env.jobSecret).mpr (ne_bearer_self env.jobSecret)⟩

/-- Claim C6: within a single run the current instant is read exactly once
before window evaluation: the whole run depends on the clock only through
its first read, the run never reads the clock more than once, and an
authorized run that finds an event reads it exactly once — so both window
checks compare against that same single instant. -/
theorem now_computed_once (env : Env) (store : StoreBehavior) (authorization : String) :
    (∀ c₁ c₂ : Nat → Int, c₁ 0 = c₂ 0 →
      generate_whatsapp_draft env store authorization c₁ =
        generate_whatsapp_draft env store authorization c₂) ∧
    (∀ clock : Nat → Int,
      (generate_whatsapp_draft env store authorization clock).clockReads ≤ 1) ∧
    (∀ (clock : Nat → Int) (m : Match),
      authorization = "Bearer " ++ env.jobSecret → store.fetch = .ok (some m) →
      (generate_whatsapp_draft env store authorization clock).clockReads = 1) := by
  refine ⟨?_, ?_, ?_⟩
  · intro c₁ c₂ h
    unfold generate_whatsapp_draft
    simp only [h]
  · intro clock
    simp only [generate_whatsapp_draft]
    repeat' split
    all_goals simp
  · intro clock m hauth hfetch
    subst hauth
    cases herr : (processTasks env store m
        (windowTasks (clock 0) m.earlybird_open_at m.general_open_at)).err with
    | none => simp [generate_whatsapp_draft, hfetch, herr]
    | some e => simp [generate_whatsapp_draft, hfetch, herr]

/-- Witness for C6 at concrete inputs: two clocks agreeing at the first
read give identical runs, and the authorized run with an event reads the
clock exactly once. -/
theorem now_computed_once_witness :
    generate_whatsapp_draft ⟨"https://sb.example", "svc-key", "https://app.example", "s3cret"⟩
        ⟨.ok (some ⟨"m1", "2025-10-18", "08:30:00", "Central Park", 22, 1000, 2000⟩),
          fun _ => .ok ()⟩ "Bearer s3cret" (fun _ => 1100) =
      generate_whatsapp_draft ⟨"https://sb.example", "svc-key", "https://app.example", "s3cret"⟩
        ⟨.ok (some ⟨"m1", "2025-10-18", "08:30:00", "Central Park", 22, 1000, 2000⟩),
          fun _ => .ok ()⟩ "Bearer s3cret" (fun n => if n = 0 then 1100 else 99) ∧
    (generate_whatsapp_draft ⟨"https://sb.example", "svc-key", "https://app.example", "s3cret"⟩
        ⟨.ok (some ⟨"m1", "2025-10-18", "08:30:00", "Central Park", 22, 1000, 2000⟩),
          fun _ => .ok ()⟩ "Bearer s3cret" (fun _ => 1100)).clockReads = 1 :=
  ⟨(now_computed_once _ _ _).1 _ _ rfl,
    (now_computed_once _ _ _).2.2 _ ⟨"m1", "2025-10-18", "08:30:00", "Central Park", 22, 1000, 2000⟩
      (by decide) rfl⟩

/-- Claim C7: the draft composer is deterministic — identical (Event,
segment) inputs under the same configured base URL yield byte-identical
output — and it reads no configuration other than the base URL (the two
environments below may differ in every other field). -/
theorem build_message_deterministic (e₁ e₂ : Env) (m₁ m₂ : Match) (a₁ a₂ : String)
    (hb : e₁.appBaseUrl = e₂.appBaseUrl) (hm : m₁ = m₂) (ha : a₁ = a₂) :
    (build_message e₁ m₁ a₁).data = (build_message e₂ m₂ a₂).data := by
  subst hm
  subst ha
  simp [build_message, rsvp_link, hb]

/-- Witness for C7: two calls with the same event, segment and base URL
but otherwise different configuration produce byte-identical output. -/
theorem build_message_deterministic_witness :
    (build_message ⟨"https://sb.example", "svc-key", "https://app.example", "s3cret"⟩
        ⟨"m1", "2025-10-18", "08:30:00", "Central Park", 22, 1000, 2000⟩ "general").data =
    (build_message ⟨"other-url", "other-key", "https://app.example", "other-secret"⟩
        ⟨"m1", "2025-10-18", "08:30:00", "Central Park", 22, 1000, 2000⟩ "general").data :=
  build_message_deterministic _ _ _ _ _ _ rfl rfl rfl

/-- Characterization of the write loop: the persisted drafts are exactly
the drafts of the `created` segments, every created segment's write
succeeded, a loop without error processes the whole list, and a failing
loop stops at the first failing write with the successful prefix persisted
and the failing call issued last. -/
lemma processTasks_spec (env : Env) (store : StoreBehavior) (m : Match) :
    ∀ l : List String,
      (processTasks env store m l).persisted =
        ((processTasks env store m l).created).map (draftFor env m) ∧
      (∀ a ∈ (processTasks env store m l).created,
        store.write (draftFor env m a) = .ok ()) ∧
      ((processTasks env store m l).err = none →
        (processTasks env store m l).created = l ∧
        (processTasks env store m l).calls = (processTasks env store m l).persisted) ∧
      (∀ e, (processTasks env store m l).err = some e →
        ∃ nxt rest, l = (processTasks env store m l).created ++ nxt :: rest ∧
          store.write (draftFor env m nxt) = .error e ∧
          (processTasks env store m l).calls =
            (processTasks env store m l).persisted ++ [draftFor env m nxt]) := by
  intro l
  induction l with
  | nil =>
    refine ⟨rfl, ?_, ?_, ?_⟩
    · intro a ha
      simp [processTasks] at ha
    · intro _
      exact ⟨rfl, rfl⟩
    · intro e he
      simp [processTasks] at he
  | cons audience rest ih =>
    obtain ⟨ih1, ih2, ih3, ih4⟩ := ih
    cases hw : store.write (draftFor env m audience) with
    | error e' =>
      refine ⟨?_, ?_, ?_, ?_⟩ <;> simp only [processTasks, hw]
      · rfl
      · intro a ha
        simp at ha
      · intro hnone
        simp at hnone
      · intro e he
        simp at he
        subst he
        exact ⟨audience, rest, by simp, hw, by simp⟩
    | ok u =>
      cases u
      refine ⟨?_, ?_, ?_, ?_⟩ <;> simp only [processTasks, hw]
      · simpa using ih1
      · intro a ha
        simp at ha
        rcases ha with ha | ha
        · subst ha
          exact hw
        · exact ih2 a ha
      · intro hnone
        obtain ⟨hc, hcalls⟩ := ih3 hnone
        simp [hc, hcalls]
      · intro e he
        obtain ⟨nxt, rest', hsplit, hwn, hcalls⟩ := ih4 e he
        refine ⟨nxt, rest', ?_, hwn, ?_⟩
        · conv_lhs => rw [hsplit]
          simp
        · simp [hcalls]

/-- The write loop under a store for which every write succeeds: every
segment is processed, with one draft written per segment. -/
lemma processTasks_all_ok (env : Env) (store : StoreBehavior) (m : Match)
    (hw : ∀ d, store.write d = .ok ()) :
    ∀ l : List String,
      processTasks env store m l = ⟨l, l.map (draftFor env m), l.map (draftFor env m), none⟩ := by
  intro l
  induction l with
  | nil => rfl
  | cons audience rest ih =>
    simp [processTasks, hw, ih]

/-- Claim C5: when a store call returns a non-success response, the run
aborts immediately and propagates that store error unchanged; on a fetch
failure nothing is written, and on a draft-write failure the drafts
persisted are exactly those of the successful prefix of segments (no
rollback), with the failing call being the last call issued. -/
theorem store_failure_propagates (env : Env) (store : StoreBehavior)
    (authorization : String) (clock : Nat → Int)
    (hauth : authorization = "Bearer " ++ env.jobSecret) :
    (∀ e, store.fetch = .error e →
      generate_whatsapp_draft env store authorization clock =
        ⟨.storeError e, 1, [], [], 0⟩) ∧
    (∀ (m : Match) (e : String), store.fetch = .ok (some m) →
      (generate_whatsapp_draft env store authorization clock).outcome = .storeError e →
      ∃ done nxt rest,
        windowTasks (clock 0) m.earlybird_open_at m.general_open_at = done ++ nxt :: rest ∧
        (∀ a ∈ done, store.write (draftFor env m a) = .ok ()) ∧
        store.write (draftFor env m nxt) = .error e ∧
        (generate_whatsapp_draft env store authorization clock).persisted =
          done.map (draftFor env m) ∧
        (generate_whatsapp_draft env store authorization clock).writeCalls =
          (generate_whatsapp_draft env store authorization clock).persisted
            ++ [draftFor env m nxt]) := by
  subst hauth
  constructor
  · intro e hf
    simp [generate_whatsapp_draft, hf]
  · intro m e hf hout
    obtain ⟨h1, h2, h3, h4⟩ := processTasks_spec env store m
      (windowTasks (clock 0) m.earlybird_open_at m.general_open_at)
    cases herr : (processTasks env store m
        (windowTasks (clock 0) m.earlybird_open_at m.general_open_at)).err with
    | none =>
      simp [generate_whatsapp_draft, hf, herr] at hout
    | some e' =>
      have he' : e' = e := by
        simpa [generate_whatsapp_draft, hf, herr] using hout
      subst he'
      obtain ⟨nxt, rest, hsplit, hwn, hcalls⟩ := h4 e' herr
      refine ⟨(processTasks env store m
          (windowTasks (clock 0) m.earlybird_open_at m.general_open_at)).created,
        nxt, rest, hsplit, h2, hwn, ?_, ?_⟩
      · simp [generate_whatsapp_draft, hf, herr, h1]
      · simp [generate_whatsapp_draft, hf, herr, hcalls]

/-- Witness for C5 at a concrete input: a failing event fetch aborts the
run with that error and no writes. -/
theorem store_failure_propagates_witness :
    generate_whatsapp_draft ⟨"https://sb.example", "svc-key", "https://app.example", "s3cret"⟩
        ⟨.error "boom", fun _ => .ok ()⟩ "Bearer s3cret" (fun _ => 0) =
      ⟨.storeError "boom", 1, [], [], 0⟩ :=
  (store_failure_propagates _ _ _ _ (by decide)).1 "boom" rfl

/-- Claim C8: an authorized run that finds an upcoming event and whose
writes all succeed persists, for each newly-open segment, a draft carrying
the event identifier, that audience segment and status exactly "ready",
and reports the event identifier together with exactly those segments. -/
theorem run_reports_event_and_segments (env : Env) (store : StoreBehavior)
    (authorization : String) (clock : Nat → Int) (m : Match)
    (hauth : authorization = "Bearer " ++ env.jobSecret)
    (hfetch : store.fetch = .ok (some m))
    (hwrite : ∀ d, store.write d = .ok ()) :
    generate_whatsapp_draft env store authorization clock =
      ⟨.success m.id (windowTasks (clock 0) m.earlybird_open_at m.general_open_at), 1,
        (windowTasks (clock 0) m.earlybird_open_at m.general_open_at).map (draftFor env m),
        (windowTasks (clock 0) m.earlybird_open_at m.general_open_at).map (draftFor env m), 1⟩ ∧
    ∀ d ∈ (windowTasks (clock 0) m.earlybird_open_at m.general_open_at).map (draftFor env m),
      d.match_id = m.id ∧ d.status = "ready" ∧
      d.audience ∈ windowTasks (clock 0) m.earlybird_open_at m.general_open_at := by
  subst hauth
  constructor
  · simp [generate_whatsapp_draft, hfetch, processTasks_all_ok env store m hwrite]
  · intro d hd
    simp only [List.mem_map] at hd
    obtain ⟨a, ha, rfl⟩ := hd
    refine ⟨rfl, rfl, ?_⟩
    simpa [draftFor] using ha

/-- Witness for C8 at a concrete input: with the earlybird window open and
the general one not, exactly one "ready" draft is written and reported. -/
theorem run_reports_event_and_segments_witness :
    generate_whatsapp_draft ⟨"https://sb.example", "svc-key", "https://app.example", "s3cret"⟩
        ⟨.ok (some ⟨"m1", "2025-10-18", "08:30:00", "Central Park", 22, 1000, 2000⟩),
          fun _ => .ok ()⟩ "Bearer s3cret" (fun _ => 1100) =
      ⟨.success "m1" ["earlybird"], 1,
        [draftFor ⟨"https://sb.example", "svc-key", "https://app.example", "s3cret"⟩
          ⟨"m1", "2025-10-18", "08:30:00", "Central Park", 22, 1000, 2000⟩ "earlybird"],
        [draftFor ⟨"https://sb.example", "svc-key", "https://app.example", "s3cret"⟩
          ⟨"m1", "2025-10-18", "08:30:00", "Central Park", 22, 1000, 2000⟩ "earlybird"], 1⟩ ∧
    ∀ d ∈ [draftFor ⟨"https://sb.example", "svc-key", "https://app.example", "s3cret"⟩
        ⟨"m1", "2025-10-18", "08:30:00", "Central Park", 22, 1000, 2000⟩ "earlybird"],
      d.match_id = "m1" ∧ d.status = "ready" ∧ d.audience ∈ ["earlybird"] := by
  have h := run_reports_event_and_segments
    ⟨"https://sb.example", "svc-key", "https://app.example", "s3cret"⟩
    ⟨.ok (some ⟨"m1", "2025-10-18", "08:30:00", "Central Park", 22, 1000, 2000⟩),
      fun _ => .ok ()⟩ "Bearer s3cret" (fun _ => 1100)
    ⟨"m1", "2025-10-18", "08:30:00", "Central Park", 22, 1000, 2000⟩
    (by decide) rfl (fun d => rfl)
  have e1 : windowTasks 1100
      ((⟨"m1", "2025-10-18", "08:30:00", "Central Park", 22, 1000, 2000⟩ : Match).earlybird_open_at)
      ((⟨"m1", "2025-10-18", "08:30:00", "Central Park", 22, 1000, 2000⟩ : Match).general_open_at) =
      ["earlybird"] := by decide
  rw [e1] at h
  simpa using h

/-- Claim C3: for every event, the composed message contains the event
date, the start time truncated to its first five characters (hour:minute,
seconds removed), the location, and the RSVP link — which is the fixed
base URL followed by a fragment-style query carrying the event identifier
and the audience tag.  The "general" message carries the capacity figure
("Spots: " followed by the capacity), while the "earlybird" message
instead states that the early window is open now and does not read the
capacity field at all (changing it leaves the message unchanged). -/
theorem build_message_contents (env : Env) (m : Match) :
    m.match_date.data <:+: (build_message env m "general").data ∧
    (m.start_time.take 5).data <:+: (build_message env m "general").data ∧
    m.location.data <:+: (build_message env m "general").data ∧
    (rsvp_link env m "general").data <:+: (build_message env m "general").data ∧
    rsvp_link env m "general" =
      env.appBaseUrl ++ "/#rsvp?match_id=" ++ m.id ++ "&aud=" ++ "general" ∧
    ("Spots: " ++ toString m.max_players).data <:+: (build_message env m "general").data ∧
    m.match_date.data <:+: (build_message env m "earlybird").data ∧
    (m.start_time.take 5).data <:+: (build_message env m "earlybird").data ∧
    m.location.data <:+: (build_message env m "earlybird").data ∧
    (rsvp_link env m "earlybird").data <:+: (build_message env m "earlybird").data ∧
    ("Early-bird window is open now." : String).data <:+:
      (build_message env m "earlybird").data ∧
    ∀ k : Nat, build_message env { m with max_players := k } "earlybird" =
      build_message env m "earlybird" := by
  refine ⟨?_, ?_, ?_, ?_, rfl, ?_, ?_, ?_, ?_, ?_, ?_, ?_⟩
  · refine ⟨("🏏 Weekend Cricket RSVP Open\n📅 " : String).data,
      (" (Sat) • ⏰ " : String).data ++ (m.start_time.take 5).data
        ++ ("\n📍 " : String).data ++ m.location.data ++ ("\n✅ RSVP here: " : String).data
        ++ (rsvp_link env m "general").data ++ ("\nSpots: " : String).data
        ++ (toString m.max_players).data ++ (" • First come first serve." : String).data, ?_⟩
    simp [build_message, String.data_append]
  · refine ⟨("🏏 Weekend Cricket RSVP Open\n📅 " : String).data ++ m.match_date.data
        ++ (" (Sat) • ⏰ " : String).data,
      ("\n📍 " : String).data ++ m.location.data ++ ("\n✅ RSVP here: " : String).data
        ++ (rsvp_link env m "general").data ++ ("\nSpots: " : String).data
        ++ (toString m.max_players).data ++ (" • First come first serve." : String).data, ?_⟩
    simp [build_message, String.data_append]
  · refine ⟨("🏏 Weekend Cricket RSVP Open\n📅 " : String).data ++ m.match_date.data
        ++ (" (Sat) • ⏰ " : String).data ++ (m.start_time.take 5).data
        ++ ("\n📍 " : String).data,
      ("\n✅ RSVP here: " : String).data ++ (rsvp_link env m "general").data
        ++ ("\nSpots: " : String).data ++ (toString m.max_players).data
        ++ (" • First come first serve." : String).data, ?_⟩
    simp [build_message, String.data_append]
  · refine ⟨("🏏 Weekend Cricket RSVP Open\n📅 " : String).data ++ m.match_date.data
        ++ (" (Sat) • ⏰ " : String).data ++ (m.start_time.take 5).data
        ++ ("\n📍 " : String).data ++ m.location.data
        ++ ("\n✅ RSVP here: " : String).data,
      ("\nSpots: " : String).data ++ (toString m.max_players).data
        ++ (" • First come first serve." : String).data, ?_⟩
    simp [build_message, String.data_append]
  · refine ⟨("🏏 Weekend Cricket RSVP Open\n📅 " : String).data ++ m.match_date.data
        ++ (" (Sat) • ⏰ " : String).data ++ (m.start_time.take 5).data
        ++ ("\n📍 " : String).data ++ m.location.data ++ ("\n✅ RSVP here: " : String).data
        ++ (rsvp_link env m "general").data ++ ("\n" : String).data,
      (" • First come first serve." : String).data, ?_⟩
    simp [build_message, String.data_append]
  · refine ⟨("🏏 Weekend Cricket RSVP (Early Bird)\n📅 " : String).data,
      (" (Sat) • ⏰ " : String).data ++ (m.start_time.take 5).data
        ++ ("\n📍 " : String).data ++ m.location.data ++ ("\n✅ RSVP here: " : String).data
        ++ (rsvp_link env m "earlybird").data
        ++ ("\nEarly-bird window is open now." : String).data, ?_⟩
    simp [build_message, String.data_append]
  · refine ⟨("🏏 Weekend Cricket RSVP (Early Bird)\n📅 " : String).data ++ m.match_date.data
        ++ (" (Sat) • ⏰ " : String).data,
      ("\n📍 " : String).data ++ m.location.data ++ ("\n✅ RSVP here: " : String).data
        ++ (rsvp_link env m "earlybird").data
        ++ ("\nEarly-bird window is open now." : String).data, ?_⟩
    simp [build_message, String.data_append]
  · refine ⟨("🏏 Weekend Cricket RSVP (Early Bird)\n📅 " : String).data ++ m.match_date.data
        ++ (" (Sat) • ⏰ " : String).data ++ (m.start_time.take 5).data
        ++ ("\n📍 " : String).data,
      ("\n✅ RSVP here: " : String).data ++ (rsvp_link env m "earlybird").data
        ++ ("\nEarly-bird window is open now." : String).data, ?_⟩
    simp [build_message, String.data_append]
  · refine ⟨("🏏 Weekend Cricket RSVP (Early Bird)\n📅 " : String).data ++ m.match_date.data
        ++ (" (Sat) • ⏰ " : String).data ++ (m.start_time.take 5).data
        ++ ("\n📍 " : String).data ++ m.location.data
        ++ ("\n✅ RSVP here: " : String).data,
      ("\nEarly-bird window is open now." : String).data, ?_⟩
    simp [build_message, String.data_append]
  · refine ⟨("🏏 Weekend Cricket RSVP (Early Bird)\n📅 " : String).data ++ m.match_date.data
        ++ (" (Sat) • ⏰ " : String).data ++ (m.start_time.take 5).data
        ++ ("\n📍 " : String).data ++ m.location.data ++ ("\n✅ RSVP here: " : String).data
        ++ (rsvp_link env m "earlybird").data ++ ("\n" : String).data,
      ([] : List Char), ?_⟩
    simp [build_message, String.data_append]
  · intro k
    simp [build_message, rsvp_link]

/-- Claim C9: for every event and every audience segment, the composed
message contains the fixed literal "(Sat)" as the weekday label; since the
event's date field is universally quantified here, the label is the same
regardless of the actual day of week and is never derived from the date. -/
theorem sat_label_fixed (env : Env) (m : Match) (audience : String) :
    ("(Sat)" : String).data <:+: (build_message env m audience).data := by
  by_cases h : (audience == "earlybird") = true
  · refine ⟨("🏏 Weekend Cricket RSVP (Early Bird)\n📅 " : String).data ++ m.match_date.data
        ++ (" " : String).data,
      (" • ⏰ " : String).data ++ (m.start_time.take 5).data
        ++ ("\n📍 " : String).data ++ m.location.data ++ ("\n✅ RSVP here: " : String).data
        ++ (rsvp_link env m audience).data
        ++ ("\nEarly-bird window is open now." : String).data, ?_⟩
    simp [build_message, h, String.data_append]
  · have hf : (audience == "earlybird") = false := by simpa using h
    refine ⟨("🏏 Weekend Cricket RSVP Open\n📅 " : String).data ++ m.match_date.data
        ++ (" " : String).data,
      (" • ⏰ " : String).data ++ (m.start_time.take 5).data
        ++ ("\n📍 " : String).data ++ m.location.data ++ ("\n✅ RSVP here: " : String).data
        ++ (rsvp_link env m audience).data ++ ("\nSpots: " : String).data
        ++ (toString m.max_players).data ++ (" • First come first serve." : String).data, ?_⟩
    simp [build_message, hf, String.data_append]
